import Mathlib

/-!
Shallow embedding of the anton0701/auth gRPC user service:
the request validators (grpc/pkg/user_v1/user.go), the repository layer
(internal/repository/auth/repository.go) and the service handlers that
wire them together, plus the auth table migration
(postgres/migrations/20240715183832_create_auth_table.sql).

Database interaction is modelled by an oracle argument: `Except String row`
stands for the outcome of QueryRow/Exec on the connection pool, with
`Except.error m` covering both driver failures and pgx's "no rows in result
set". `time.Now()` is passed in as an explicit `now : Nat`.
-/

namespace Auth

/-- The protobuf `UserRole` enum used throughout `user_v1`. The generated
enum source is not under src/; proto3 fixes `UNKNOWN` as the zero value
(the validators compare against `UserRole_UNKNOWN` and the default of
`GetRole()`), with `user` and `admin` the remaining tags. -/
inductive UserRole where
  | UNKNOWN
  | user
  | admin
deriving DecidableEq, Repr

/-- Go `int32(req.Role)`: the numeric tag written to the role column. -/
def UserRole.toInt32 : UserRole → Int
  | UserRole.UNKNOWN => 0
  | UserRole.user => 1
  | UserRole.admin => 2

/-- ASCII part of Go's `unicode.IsSpace`, as used by `strings.TrimSpace`
(space, tab, newline, vertical tab, form feed, carriage return). -/
def goIsSpaceChar (c : Char) : Bool :=
  c.toNat = 32 || c.toNat = 9 || c.toNat = 10 || c.toNat = 11 || c.toNat = 12 || c.toNat = 13

/-- Go `strings.TrimSpace`: drop leading and trailing whitespace. -/
def trimSpace (s : String) : String :=
  String.mk (((s.toList.dropWhile goIsSpaceChar).reverse.dropWhile goIsSpaceChar).reverse)

/-- gRPC status codes that the embedding distinguishes (the `codes`
package has more; the service only ever constructs `InvalidArgument`
and `Internal`, and the claims contrast these with `NotFound`). -/
inductive Code where
  | OK
  | InvalidArgument
  | NotFound
  | Internal
  | Unknown
deriving DecidableEq, Repr

/-- `status.Error(code, msg)` / `status.Errorf(code, msg)` values. -/
structure Status where
  code : Code
  message : String
deriving DecidableEq, Repr

def invalidArgumentErr (m : String) : Status := Status.mk Code.InvalidArgument m

def internalErr (m : String) : Status := Status.mk Code.Internal m

/-- `GetUserInfoRequest` proto message: carries only the user id (int64). -/
structure GetUserInfoRequest where
  Id : Int
deriving DecidableEq, Repr

/-- `CreateUserRequest` proto message. -/
structure CreateUserRequest where
  Name : String
  Email : String
  Password : String
  PasswordConfirm : String
  Role : UserRole
deriving DecidableEq, Repr

/-- `UpdateUserRequest` proto message: `Name` and `Email` are
`wrapperspb.StringValue` pointers, hence `Option String` here. -/
structure UpdateUserRequest where
  Id : Int
  Name : Option String
  Email : Option String
  Role : UserRole
deriving DecidableEq, Repr

/-- `DeleteUserRequest` proto message: carries only the user id. -/
structure DeleteUserRequest where
  Id : Int
deriving DecidableEq, Repr

/-- Proto getter `req.GetRole()` on a non-nil request returns the field. -/
def CreateUserRequest.GetRole (req : CreateUserRequest) : UserRole := req.Role

/-- Proto getter `req.GetRole()` on a non-nil request returns the field. -/
def UpdateUserRequest.GetRole (req : UpdateUserRequest) : UserRole := req.Role

/- Validators from grpc/pkg/user_v1/user.go. Go returns `error` (nil when
valid); `Option Status` with `none` for nil. -/

/-- `(*GetUserInfoRequest).Validate`: error when the id is zero. -/
def GetUserInfoRequest.Validate (req : GetUserInfoRequest) : Option Status :=
  if req.Id = 0 then
    some (invalidArgumentErr "User-id must be provided")
  else
    none

/-- `(*CreateUserRequest).Validate`: name, email, password and role checks
in source order. -/
def CreateUserRequest.Validate (req : CreateUserRequest) : Option Status :=
  let trimmedNameFromRequest := trimSpace req.Name
  if trimmedNameFromRequest.length = 0 then
    some (invalidArgumentErr "User name must not be empty")
  else
    let trimmedEmailFromRequest := trimSpace req.Email
    if trimmedEmailFromRequest.length = 0 then
      some (invalidArgumentErr "Email must not be empty")
    else
      let trimmedPasswordFromRequest := trimSpace req.Password
      if req.Password ≠ req.PasswordConfirm ∨ trimmedPasswordFromRequest.length = 0 then
        some (invalidArgumentErr "Password must not be empty. Password must be equal to Password_confirm")
      else
        if req.GetRole = UserRole.UNKNOWN then
          some (invalidArgumentErr "Invalid role")
        else
          none

/-- `(*UpdateUserRequest).Validate`: only the role is checked. -/
def UpdateUserRequest.Validate (req : UpdateUserRequest) : Option Status :=
  if req.GetRole = UserRole.UNKNOWN then
    some (invalidArgumentErr "Invalid role")
  else
    none

/-- `(*DeleteUserRequest).Validate`: error when the id is zero. -/
def DeleteUserRequest.Validate (req : DeleteUserRequest) : Option Status :=
  if req.Id = 0 then
    some (invalidArgumentErr "User-id must be provided")
  else
    none

/- SQL construction, modelling github.com/Masterminds/squirrel as used by
internal/repository/auth/repository.go. Statements are kept structurally:
tables, column lists, bound values and the single `WHERE id = $n` clause
every query of this service uses. -/

/-- A value bound into a parameterized SQL statement. -/
inductive SqlValue where
  | str (s : String)
  | int32 (i : Int)
  | timeVal (t : Nat)
deriving DecidableEq, Repr

/-- A built parameterized statement (the `query, args` pair of `ToSql`). -/
inductive Stmt where
  | selectStmt (table : String) (cols : List String) (whereId : Int)
  | insertStmt (table : String) (cols : List String) (vals : List SqlValue) (suffix : String)
  | updateStmt (table : String) (sets : List (String × SqlValue)) (whereId : Int)
  | deleteStmt (table : String) (whereId : Int)
deriving DecidableEq, Repr

/-- squirrel `SelectBuilder` after `Select(...).From(...).Where(sq.Eq)`. -/
structure SelectBuilder where
  table : String
  columns : List String
  whereId : Int
deriving DecidableEq, Repr

/-- squirrel `SelectBuilder.ToSql`: errors when no result columns. -/
def SelectBuilder.ToSql (b : SelectBuilder) : Except String Stmt :=
  if b.columns.isEmpty then
    Except.error "select statements must have at least one result column"
  else
    Except.ok (Stmt.selectStmt b.table b.columns b.whereId)

/-- squirrel `InsertBuilder` after `Insert(...).Columns(...).Values(...).Suffix(...)`. -/
structure InsertBuilder where
  table : String
  columns : List String
  values : List SqlValue
  suffix : String
deriving DecidableEq, Repr

/-- squirrel `InsertBuilder.ToSql`: errors when no values. -/
def InsertBuilder.ToSql (b : InsertBuilder) : Except String Stmt :=
  if b.values.isEmpty then
    Except.error "insert statements must have at least one set of values"
  else
    Except.ok (Stmt.insertStmt b.table b.columns b.values b.suffix)

/-- squirrel `UpdateBuilder` after `Update(...).Where(sq.Eq)`; `setClauses`
accumulates in call order. -/
structure UpdateBuilder where
  table : String
  setClauses : List (String × SqlValue)
  whereId : Int
deriving DecidableEq, Repr

/-- squirrel `UpdateBuilder.Set`: value receiver, RETURNS a new builder and
leaves the receiver unchanged (squirrel builders are immutable). -/
def UpdateBuilder.Set (b : UpdateBuilder) (column : String) (value : SqlValue) : UpdateBuilder :=
  UpdateBuilder.mk b.table (b.setClauses ++ [(column, value)]) b.whereId

/-- squirrel `UpdateBuilder.ToSql`: errors when there is no SET clause. -/
def UpdateBuilder.ToSql (b : UpdateBuilder) : Except String Stmt :=
  if b.setClauses.isEmpty then
    Except.error "update statements must have at least one Set clause"
  else
    Except.ok (Stmt.updateStmt b.table b.setClauses b.whereId)

/-- squirrel `DeleteBuilder` after `Delete(...).Where(sq.Eq)`. -/
structure DeleteBuilder where
  table : String
  whereId : Int
deriving DecidableEq, Repr

/-- squirrel `DeleteBuilder.ToSql` for this service's fixed shape. -/
def DeleteBuilder.ToSql (b : DeleteBuilder) : Except String Stmt :=
  Except.ok (Stmt.deleteStmt b.table b.whereId)

/- Column and table names from internal/repository/auth/repository.go. -/

def tableName : String := "auth"

def idColumn : String := "id"

def nameColumn : String := "name"

def emailColumn : String := "email"

def roleColumn : String := "role"

def createdAtColumn : String := "created_at"

def updatedAtColumn : String := "updated_at"

def passwordColumn : String := "password"

def passwordConfirmColumn : String := "password_confirm"

/-- Columns of the `auth` table as created by
postgres/migrations/20240715183832_create_auth_table.sql. -/
def authMigrationColumns : List String :=
  [idColumn, nameColumn, emailColumn, roleColumn, createdAtColumn, updatedAtColumn]

/-- A stored `auth` row as scanned by `GetUser`: `updatedAt` is a
`sql.NullTime`, hence `Option`. -/
structure UserRow where
  id : Int
  name : String
  email : String
  role : UserRole
  createdAt : Nat
  updatedAt : Option Nat
deriving DecidableEq, Repr

/-- `GetUserInfoResponse` proto message; the two timestamps are proto
pointers, so `Option` (`timestamppb.New t` is `some t`, nil is `none`). -/
structure GetUserInfoResponse where
  Id : Int
  Name : String
  Email : String
  Role : UserRole
  CreatedAt : Option Nat
  UpdatedAt : Option Nat
deriving DecidableEq, Repr

/-- `CreateUserResponse` proto message: id of the created user. -/
structure CreateUserResponse where
  Id : Int
deriving DecidableEq, Repr

/-- Result of one RPC as observed at the boundary: the returned value or
error, plus the SQL statements this call sent to the pool. -/
structure RpcOutcome (α : Type) where
  result : Except Status α
  executed : List Stmt

/-- The status code when the outcome is an error. -/
def RpcOutcome.errCode {α : Type} (o : RpcOutcome α) : Option Code :=
  match o.result with
  | Except.error e => some e.code
  | Except.ok _ => none

/- Repository layer, internal/repository/auth/repository.go.  The database
oracle argument stands for the single QueryRow/Exec the method performs. -/

/-- `repo.GetUser`: select by id, scan one row, map to the response. -/
def repoGetUser (req : GetUserInfoRequest) (db : Except String UserRow) :
    RpcOutcome GetUserInfoResponse :=
  let builderSelect : SelectBuilder :=
    SelectBuilder.mk tableName
      [idColumn, nameColumn, emailColumn, roleColumn, createdAtColumn, updatedAtColumn]
      req.Id
  match builderSelect.ToSql with
  | Except.error e =>
      RpcOutcome.mk
        (Except.error (internalErr ("Unable to create SQL query from builder. Error info: " ++ e)))
        []
  | Except.ok query =>
      RpcOutcome.mk
        (match db with
          | Except.error e =>
              Except.error (internalErr ("Error while query row. Error info: " ++ e))
          | Except.ok row =>
              let updatedAtProto : Option Nat :=
                match row.updatedAt with
                | some t => some t
                | none => none
              Except.ok
                (GetUserInfoResponse.mk row.id row.name row.email row.role
                  (some row.createdAt) updatedAtProto))
        [query]

/-- `repo.CreateUser`: insert the request fields, returning the new id. -/
def repoCreateUser (req : CreateUserRequest) (db : Except String Int) :
    RpcOutcome CreateUserResponse :=
  let builderInsert : InsertBuilder :=
    InsertBuilder.mk tableName
      [nameColumn, emailColumn, passwordColumn, passwordConfirmColumn, roleColumn]
      [SqlValue.str req.Name, SqlValue.str req.Email, SqlValue.str req.Password,
        SqlValue.str req.PasswordConfirm, SqlValue.int32 req.Role.toInt32]
      "RETURNING id"
  match builderInsert.ToSql with
  | Except.error e =>
      RpcOutcome.mk
        (Except.error (internalErr ("Unable to create SQL query from builder, error: " ++ e)))
        []
  | Except.ok query =>
      RpcOutcome.mk
        (match db with
          | Except.error e =>
              Except.error (internalErr ("Unable to get userID from created user, error: " ++ e))
          | Except.ok userID => Except.ok (CreateUserResponse.mk userID))
        [query]

/-- `repo.UpdateUser`.  The Go source calls `builderUpdate.Set(...)` inside
the two `if` blocks WITHOUT reassigning the result; squirrel's `Set` has a
value receiver and returns a fresh builder, so those calls leave
`builderUpdate` unchanged.  The two discarded results are kept here as
unused locals to mirror the source exactly. -/
def repoUpdateUser (req : UpdateUserRequest) (now : Nat) (db : Except String Unit) :
    RpcOutcome Unit :=
  let builderUpdate : UpdateBuilder :=
    ((UpdateBuilder.mk tableName [] req.Id).Set
        roleColumn (SqlValue.int32 req.GetRole.toInt32)).Set
      updatedAtColumn (SqlValue.timeVal now)
  let _discardedNameSet : Option UpdateBuilder :=
    match req.Name with
    | some nv =>
        let trimmedName := trimSpace nv
        if 0 < trimmedName.length then
          some (builderUpdate.Set nameColumn (SqlValue.str trimmedName))
        else
          none
    | none => none
  let _discardedEmailSet : Option UpdateBuilder :=
    match req.Email with
    | some ev =>
        let trimmedEmail := trimSpace ev
        if 0 < trimmedEmail.length then
          some (builderUpdate.Set emailColumn (SqlValue.str trimmedEmail))
        else
          none
    | none => none
  match builderUpdate.ToSql with
  | Except.error e =>
      RpcOutcome.mk
        (Except.error (internalErr ("Unable to create SQL query from builder, error info: " ++ e)))
        []
  | Except.ok query =>
      RpcOutcome.mk
        (match db with
          | Except.error e =>
              Except.error (internalErr ("Unable to execute SQL query, error info: " ++ e))
          | Except.ok _ => Except.ok ())
        [query]

/-- `repo.DeleteUser`: delete by id. -/
def repoDeleteUser (req : DeleteUserRequest) (db : Except String Unit) :
    RpcOutcome Unit :=
  let builderDelete : DeleteBuilder := DeleteBuilder.mk tableName req.Id
  match builderDelete.ToSql with
  | Except.error e =>
      RpcOutcome.mk
        (Except.error (internalErr ("Unable to create SQL query from builder, error info: " ++ e)))
        []
  | Except.ok query =>
      RpcOutcome.mk
        (match db with
          | Except.error e =>
              Except.error (internalErr ("Unable to execute SQL query, error info: " ++ e))
          | Except.ok _ => Except.ok ())
        [query]

/- Service handlers (the layered gRPC server registered with the
repository): validate, then delegate to the repository. -/

/-- `server.GetUserInfo`: validate, then `authRepository.GetUser`. -/
def serverGetUserInfo (req : GetUserInfoRequest) (db : Except String UserRow) :
    RpcOutcome GetUserInfoResponse :=
  match req.Validate with
  | some e => RpcOutcome.mk (Except.error e) []
  | none => repoGetUser req db

/-- `server.CreateUser`: validate, then `authRepository.CreateUser`. -/
def serverCreateUser (req : CreateUserRequest) (db : Except String Int) :
    RpcOutcome CreateUserResponse :=
  match req.Validate with
  | some e => RpcOutcome.mk (Except.error e) []
  | none => repoCreateUser req db

/-- `server.UpdateUser`: validate, then `authRepository.UpdateUser`;
success is `emptypb.Empty`, modelled as `Unit`. -/
def serverUpdateUser (req : UpdateUserRequest) (now : Nat) (db : Except String Unit) :
    RpcOutcome Unit :=
  match req.Validate with
  | some e => RpcOutcome.mk (Except.error e) []
  | none => repoUpdateUser req now db

/-- `server.DeleteUser`: validate, then `authRepository.DeleteUser`. -/
def serverDeleteUser (req : DeleteUserRequest) (db : Except String Unit) :
    RpcOutcome Unit :=
  match req.Validate with
  | some e => RpcOutcome.mk (Except.error e) []
  | none => repoDeleteUser req db

/-- The value bound to the role column of a built statement, if any. -/
def stmtRoleValue : Stmt → Option SqlValue
  | Stmt.insertStmt _ cols vals _ => (cols.zip vals).lookup roleColumn
  | Stmt.updateStmt _ sets _ => sets.lookup roleColumn
  | _ => none

/-- The CreateUser validation-failure condition exactly as claim C2 words
it: name blank after trimming, email blank after trimming, password empty
(as a plain string, no trimming), password different from its
confirmation, or role UNKNOWN.  Used to compare the claim's wording with
the source's `Validate`. -/
def claimC2Condition (req : CreateUserRequest) : Prop :=
  (trimSpace req.Name).length = 0 ∨ (trimSpace req.Email).length = 0 ∨
    req.Password = "" ∨ req.Password ≠ req.PasswordConfirm ∨
    req.Role = UserRole.UNKNOWN

instance (req : CreateUserRequest) : Decidable (claimC2Condition req) := by
  unfold claimC2Condition
  infer_instance

/- Helper lemmas shared by the claim theorems. -/

lemma validateGet_none_iff (req : GetUserInfoRequest) :
    req.Validate = none ↔ ¬ req.Id = 0 := by
  unfold GetUserInfoRequest.Validate
  split_ifs <;> simp_all

lemma validateDelete_none_iff (req : DeleteUserRequest) :
    req.Validate = none ↔ ¬ req.Id = 0 := by
  unfold DeleteUserRequest.Validate
  split_ifs <;> simp_all

lemma validateUpdate_none_iff (req : UpdateUserRequest) :
    req.Validate = none ↔ ¬ req.Role = UserRole.UNKNOWN := by
  unfold UpdateUserRequest.Validate UpdateUserRequest.GetRole
  split_ifs <;> simp_all

lemma validateGet_code (req : GetUserInfoRequest) :
    ∀ e, req.Validate = some e → e.code = Code.InvalidArgument := by
  intro e h
  unfold GetUserInfoRequest.Validate at h
  split_ifs at h
  simp_all [invalidArgumentErr]
  simp [← h]

lemma validateDelete_code (req : DeleteUserRequest) :
    ∀ e, req.Validate = some e → e.code = Code.InvalidArgument := by
  intro e h
  unfold DeleteUserRequest.Validate at h
  split_ifs at h
  simp_all [invalidArgumentErr]
  simp [← h]

lemma validateUpdate_code (req : UpdateUserRequest) :
    ∀ e, req.Validate = some e → e.code = Code.InvalidArgument := by
  intro e h
  unfold UpdateUserRequest.Validate at h
  split_ifs at h
  simp_all [invalidArgumentErr]
  simp [← h]

lemma validateCreate_code (req : CreateUserRequest) :
    ∀ e, req.Validate = some e → e.code = Code.InvalidArgument := by
  intro e h
  unfold CreateUserRequest.Validate CreateUserRequest.GetRole at h
  dsimp only at h
  split_ifs at h <;> simp_all [invalidArgumentErr] <;> simp [← h]

lemma validateCreate_isSome_iff (req : CreateUserRequest) :
    req.Validate.isSome = true ↔
      ((trimSpace req.Name).length = 0 ∨ (trimSpace req.Email).length = 0 ∨
        (trimSpace req.Password).length = 0 ∨ req.Password ≠ req.PasswordConfirm ∨
        req.Role = UserRole.UNKNOWN) := by
  by_cases hn : (trimSpace req.Name).length = 0 <;>
    by_cases he : (trimSpace req.Email).length = 0 <;>
      by_cases hpe : req.Password = req.PasswordConfirm <;>
        by_cases hpl : (trimSpace req.Password).length = 0 <;>
          by_cases hr : req.Role = UserRole.UNKNOWN <;>
            simp [CreateUserRequest.Validate, CreateUserRequest.GetRole, hn, he, hpe, hpl, hr] <;>
              (try (split <;> simp))

lemma validateCreate_none_iff (req : CreateUserRequest) :
    req.Validate = none ↔
      ¬((trimSpace req.Name).length = 0 ∨ (trimSpace req.Email).length = 0 ∨
        (trimSpace req.Password).length = 0 ∨ req.Password ≠ req.PasswordConfirm ∨
        req.Role = UserRole.UNKNOWN) := by
  rw [← validateCreate_isSome_iff]
  cases h : req.Validate <;> simp

lemma roleToInt32_ne_zero (r : UserRole) (h : ¬ r = UserRole.UNKNOWN) :
    ¬ r.toInt32 = 0 := by
  cases r <;> simp_all [UserRole.toInt32]

lemma repoGetUser_executed (req : GetUserInfoRequest) (db : Except String UserRow) :
    (repoGetUser req db).executed =
      [Stmt.selectStmt tableName
        [idColumn, nameColumn, emailColumn, roleColumn, createdAtColumn, updatedAtColumn]
        req.Id] := rfl

lemma repoCreateUser_executed (req : CreateUserRequest) (db : Except String Int) :
    (repoCreateUser req db).executed =
      [Stmt.insertStmt tableName
        [nameColumn, emailColumn, passwordColumn, passwordConfirmColumn, roleColumn]
        [SqlValue.str req.Name, SqlValue.str req.Email, SqlValue.str req.Password,
          SqlValue.str req.PasswordConfirm, SqlValue.int32 req.Role.toInt32]
        "RETURNING id"] := rfl

lemma repoUpdateUser_executed (req : UpdateUserRequest) (now : Nat) (db : Except String Unit) :
    (repoUpdateUser req now db).executed =
      [Stmt.updateStmt tableName
        [(roleColumn, SqlValue.int32 req.Role.toInt32), (updatedAtColumn, SqlValue.timeVal now)]
        req.Id] := rfl

lemma repoDeleteUser_executed (req : DeleteUserRequest) (db : Except String Unit) :
    (repoDeleteUser req db).executed = [Stmt.deleteStmt tableName req.Id] := rfl

lemma repoGetUser_error_code (req : GetUserInfoRequest) (db : Except String UserRow) :
    ∀ e, (repoGetUser req db).result = Except.error e → e.code = Code.Internal := by
  intro e h
  cases db with
  | error m =>
      simp [repoGetUser, SelectBuilder.ToSql] at h
      simp [← h, internalErr]
  | ok row =>
      simp [repoGetUser, SelectBuilder.ToSql] at h

lemma repoCreateUser_error_code (req : CreateUserRequest) (db : Except String Int) :
    ∀ e, (repoCreateUser req db).result = Except.error e → e.code = Code.Internal := by
  intro e h
  cases db with
  | error m =>
      simp [repoCreateUser, InsertBuilder.ToSql] at h
      simp [← h, internalErr]
  | ok userID =>
      simp [repoCreateUser, InsertBuilder.ToSql] at h

lemma repoUpdateUser_error_code (req : UpdateUserRequest) (now : Nat) (db : Except String Unit) :
    ∀ e, (repoUpdateUser req now db).result = Except.error e → e.code = Code.Internal := by
  intro e h
  cases db with
  | error m =>
      simp [repoUpdateUser, UpdateBuilder.ToSql, UpdateBuilder.Set] at h
      simp [← h, internalErr]
  | ok u =>
      simp [repoUpdateUser, UpdateBuilder.ToSql, UpdateBuilder.Set] at h

lemma repoDeleteUser_error_code (req : DeleteUserRequest) (db : Except String Unit) :
    ∀ e, (repoDeleteUser req db).result = Except.error e → e.code = Code.Internal := by
  intro e h
  cases db with
  | error m =>
      simp [repoDeleteUser, DeleteBuilder.ToSql] at h
      simp [← h, internalErr]
  | ok u =>
      simp [repoDeleteUser, DeleteBuilder.ToSql] at h

lemma serverGetUserInfo_error_code (req : GetUserInfoRequest) (db : Except String UserRow) :
    ∀ e, (serverGetUserInfo req db).result = Except.error e →
      e.code = Code.InvalidArgument ∨ e.code = Code.Internal := by
  intro e h
  unfold serverGetUserInfo at h
  cases hv : req.Validate with
  | some s =>
      rw [hv] at h
      simp at h
      subst h
      exact Or.inl (validateGet_code req s hv)
  | none =>
      rw [hv] at h
      exact Or.inr (repoGetUser_error_code req db e h)

lemma serverCreateUser_error_code (req : CreateUserRequest) (db : Except String Int) :
    ∀ e, (serverCreateUser req db).result = Except.error e →
      e.code = Code.InvalidArgument ∨ e.code = Code.Internal := by
  intro e h
  unfold serverCreateUser at h
  cases hv : req.Validate with
  | some s =>
      rw [hv] at h
      simp at h
      subst h
      exact Or.inl (validateCreate_code req s hv)
  | none =>
      rw [hv] at h
      exact Or.inr (repoCreateUser_error_code req db e h)

lemma serverUpdateUser_error_code (req : UpdateUserRequest) (now : Nat) (db : Except String Unit) :
    ∀ e, (serverUpdateUser req now db).result = Except.error e →
      e.code = Code.InvalidArgument ∨ e.code = Code.Internal := by
  intro e h
  unfold serverUpdateUser at h
  cases hv : req.Validate with
  | some s =>
      rw [hv] at h
      simp at h
      subst h
      exact Or.inl (validateUpdate_code req s hv)
  | none =>
      rw [hv] at h
      exact Or.inr (repoUpdateUser_error_code req now db e h)

lemma serverDeleteUser_error_code (req : DeleteUserRequest) (db : Except String Unit) :
    ∀ e, (serverDeleteUser req db).result = Except.error e →
      e.code = Code.InvalidArgument ∨ e.code = Code.Internal := by
  intro e h
  unfold serverDeleteUser at h
  cases hv : req.Validate with
  | some s =>
      rw [hv] at h
      simp at h
      subst h
      exact Or.inl (validateDelete_code req s hv)
  | none =>
      rw [hv] at h
      exact Or.inr (repoDeleteUser_error_code req db e h)

lemma serverGetUserInfo_ia_executed (req : GetUserInfoRequest) (db : Except String UserRow)
    (h : (serverGetUserInfo req db).errCode = some Code.InvalidArgument) :
    (serverGetUserInfo req db).executed = [] := by
  unfold serverGetUserInfo at h ⊢
  cases hv : req.Validate with
  | some s => rfl
  | none =>
      exfalso
      rw [hv] at h
      have h2 : (repoGetUser req db).errCode = some Code.InvalidArgument := h
      unfold RpcOutcome.errCode at h2
      cases hr : (repoGetUser req db).result with
      | error e =>
          rw [hr] at h2
          simp at h2
          have hc := repoGetUser_error_code req db e hr
          simp_all
      | ok v =>
          rw [hr] at h2
          simp at h2

lemma serverCreateUser_ia_executed (req : CreateUserRequest) (db : Except String Int)
    (h : (serverCreateUser req db).errCode = some Code.InvalidArgument) :
    (serverCreateUser req db).executed = [] := by
  unfold serverCreateUser at h ⊢
  cases hv : req.Validate with
  | some s => rfl
  | none =>
      exfalso
      rw [hv] at h
      have h2 : (repoCreateUser req db).errCode = some Code.InvalidArgument := h
      unfold RpcOutcome.errCode at h2
      cases hr : (repoCreateUser req db).result with
      | error e =>
          rw [hr] at h2
          simp at h2
          have hc := repoCreateUser_error_code req db e hr
          simp_all
      | ok v =>
          rw [hr] at h2
          simp at h2

lemma serverUpdateUser_ia_executed (req : UpdateUserRequest) (now : Nat) (db : Except String Unit)
    (h : (serverUpdateUser req now db).errCode = some Code.InvalidArgument) :
    (serverUpdateUser req now db).executed = [] := by
  unfold serverUpdateUser at h ⊢
  cases hv : req.Validate with
  | some s => rfl
  | none =>
      exfalso
      rw [hv] at h
      have h2 : (repoUpdateUser req now db).errCode = some Code.InvalidArgument := h
      unfold RpcOutcome.errCode at h2
      cases hr : (repoUpdateUser req now db).result with
      | error e =>
          rw [hr] at h2
          simp at h2
          have hc := repoUpdateUser_error_code req now db e hr
          simp_all
      | ok v =>
          rw [hr] at h2
          simp at h2

lemma serverDeleteUser_ia_executed (req : DeleteUserRequest) (db : Except String Unit)
    (h : (serverDeleteUser req db).errCode = some Code.InvalidArgument) :
    (serverDeleteUser req db).executed = [] := by
  unfold serverDeleteUser at h ⊢
  cases hv : req.Validate with
  | some s => rfl
  | none =>
      exfalso
      rw [hv] at h
      have h2 : (repoDeleteUser req db).errCode = some Code.InvalidArgument := h
      unfold RpcOutcome.errCode at h2
      cases hr : (repoDeleteUser req db).result with
      | error e =>
          rw [hr] at h2
          simp at h2
          have hc := repoDeleteUser_error_code req db e hr
          simp_all
      | ok v =>
          rw [hr] at h2
          simp at h2

/- Claim theorems. -/

/-- C1: evaluating the repository UpdateUser at a request whose email is
present and non-blank after trimming and whose name is absent shows the
generated SET clause holds exactly role and updated_at and the statement
executes without error: the email column never reaches the statement,
because the Go code discards the builder returned by the conditional
`builderUpdate.Set(emailColumn, trimmedEmail)` call, so the claimed SET
clause of email, role and updated_at is not what the code generates. -/
theorem updateUser_email_only_request_set_clause :
    (repoUpdateUser (UpdateUserRequest.mk 1 none (some "new@mail.com") UserRole.user) 0
        (Except.ok ())).executed =
      [Stmt.updateStmt tableName
        [(roleColumn, SqlValue.int32 1), (updatedAtColumn, SqlValue.timeVal 0)] 1] ∧
    (repoUpdateUser (UpdateUserRequest.mk 1 none (some "new@mail.com") UserRole.user) 0
        (Except.ok ())).result = Except.ok () :=
  ⟨rfl, rfl⟩

/-- C2 counterexample: a whitespace-only password equal to its confirmation
satisfies none of the claim's conditions (the password is a non-empty
string and equals its confirmation), yet CreateUser validation rejects the
request with InvalidArgument, because the source tests the TRIMMED
password for emptiness. -/
theorem createUser_claim_condition_counterexample :
    ¬ claimC2Condition (CreateUserRequest.mk "a" "b" " " " " UserRole.user) ∧
      (CreateUserRequest.mk "a" "b" " " " " UserRole.user).Validate =
        some (invalidArgumentErr
          "Password must not be empty. Password must be equal to Password_confirm") :=
  ⟨by decide, by decide⟩

/-- C2 (amended): CreateUser validation fails exactly when the trimmed
name is empty, or the trimmed email is empty, or the password is empty
after trimming, or the password differs from its confirmation, or the
role is UNKNOWN; and every validation error it returns carries status
code InvalidArgument. -/
theorem createUser_validate_iff_trimmed (req : CreateUserRequest) :
    (req.Validate.isSome = true ↔
      ((trimSpace req.Name).length = 0 ∨ (trimSpace req.Email).length = 0 ∨
        (trimSpace req.Password).length = 0 ∨ req.Password ≠ req.PasswordConfirm ∨
        req.Role = UserRole.UNKNOWN)) ∧
    ∀ e, req.Validate = some e → e.code = Code.InvalidArgument :=
  ⟨validateCreate_isSome_iff req, validateCreate_code req⟩

/-- C2 witness: a password differing from its confirmation is rejected,
and the resulting error carries InvalidArgument. -/
theorem createUser_validate_iff_trimmed_witness :
    (CreateUserRequest.mk "a" "b" "p" "q" UserRole.user).Validate.isSome = true ∧
      (invalidArgumentErr
          "Password must not be empty. Password must be equal to Password_confirm").code =
        Code.InvalidArgument :=
  ⟨(createUser_validate_iff_trimmed (CreateUserRequest.mk "a" "b" "p" "q" UserRole.user)).1.mpr
      (by decide),
    (createUser_validate_iff_trimmed (CreateUserRequest.mk "a" "b" "p" "q" UserRole.user)).2
      (invalidArgumentErr
        "Password must not be empty. Password must be equal to Password_confirm")
      (by decide)⟩

/-- C3: every error returned by the four RPC handlers carries status code
InvalidArgument or Internal, whatever the database does; and a select by a
non-zero id whose row lookup fails (pgx reports an error such as its
no-rows error) surfaces as an Internal error, not NotFound. -/
theorem rpc_error_codes_limited :
    (∀ (req : GetUserInfoRequest) (db : Except String UserRow) (e : Status),
        (serverGetUserInfo req db).result = Except.error e →
          e.code = Code.InvalidArgument ∨ e.code = Code.Internal) ∧
    (∀ (req : CreateUserRequest) (db : Except String Int) (e : Status),
        (serverCreateUser req db).result = Except.error e →
          e.code = Code.InvalidArgument ∨ e.code = Code.Internal) ∧
    (∀ (req : UpdateUserRequest) (now : Nat) (db : Except String Unit) (e : Status),
        (serverUpdateUser req now db).result = Except.error e →
          e.code = Code.InvalidArgument ∨ e.code = Code.Internal) ∧
    (∀ (req : DeleteUserRequest) (db : Except String Unit) (e : Status),
        (serverDeleteUser req db).result = Except.error e →
          e.code = Code.InvalidArgument ∨ e.code = Code.Internal) ∧
    (∀ (req : GetUserInfoRequest) (m : String), ¬ req.Id = 0 →
        (serverGetUserInfo req (Except.error m)).result =
          Except.error (internalErr ("Error while query row. Error info: " ++ m))) := by
  refine ⟨serverGetUserInfo_error_code, serverCreateUser_error_code,
    serverUpdateUser_error_code, serverDeleteUser_error_code, ?_⟩
  intro req m h
  unfold serverGetUserInfo
  rw [(validateGet_none_iff req).mpr h]
  rfl

/-- C3 witness: a validation error is InvalidArgument-or-Internal, and a
get by id 7 whose row lookup reports pgx's no-rows error returns the
Internal wrapping of that error. -/
theorem rpc_error_codes_limited_witness :
    ((invalidArgumentErr "User-id must be provided").code = Code.InvalidArgument ∨
      (invalidArgumentErr "User-id must be provided").code = Code.Internal) ∧
    (serverGetUserInfo (GetUserInfoRequest.mk 7) (Except.error "no rows in result set")).result =
      Except.error
        (internalErr ("Error while query row. Error info: " ++ "no rows in result set")) :=
  ⟨rpc_error_codes_limited.1 (GetUserInfoRequest.mk 0)
      (Except.ok (UserRow.mk 1 "n" "e" UserRole.user 0 none))
      (invalidArgumentErr "User-id must be provided") rfl,
    rpc_error_codes_limited.2.2.2.2 (GetUserInfoRequest.mk 7) "no rows in result set"
      (by decide)⟩

/-- C4: both CreateUser and UpdateUser reject role UNKNOWN with
InvalidArgument before any statement reaches the pool, and every insert or
update statement either handler does execute binds the role column to the
int32 tag of the request's role, which is never the UNKNOWN tag 0. -/
theorem role_never_unknown_after_write :
    (∀ (req : CreateUserRequest) (db : Except String Int), req.Role = UserRole.UNKNOWN →
        (serverCreateUser req db).errCode = some Code.InvalidArgument ∧
        (serverCreateUser req db).executed = []) ∧
    (∀ (req : UpdateUserRequest) (now : Nat) (db : Except String Unit),
        req.Role = UserRole.UNKNOWN →
          (serverUpdateUser req now db).errCode = some Code.InvalidArgument ∧
          (serverUpdateUser req now db).executed = []) ∧
    (∀ (req : CreateUserRequest) (db : Except String Int) (s : Stmt),
        s ∈ (serverCreateUser req db).executed →
          stmtRoleValue s = some (SqlValue.int32 req.Role.toInt32) ∧
          ¬ req.Role = UserRole.UNKNOWN ∧ ¬ req.Role.toInt32 = 0) ∧
    (∀ (req : UpdateUserRequest) (now : Nat) (db : Except String Unit) (s : Stmt),
        s ∈ (serverUpdateUser req now db).executed →
          stmtRoleValue s = some (SqlValue.int32 req.Role.toInt32) ∧
          ¬ req.Role = UserRole.UNKNOWN ∧ ¬ req.Role.toInt32 = 0) := by
  refine ⟨?_, ?_, ?_, ?_⟩
  · intro req db h
    have hs : req.Validate.isSome = true := (validateCreate_isSome_iff req).mpr (by tauto)
    cases hv : req.Validate with
    | none => rw [hv] at hs; cases hs
    | some s =>
        have hc := validateCreate_code req s hv
        unfold serverCreateUser
        rw [hv]
        exact ⟨by simp [RpcOutcome.errCode, hc], rfl⟩
  · intro req now db h
    unfold serverUpdateUser UpdateUserRequest.Validate UpdateUserRequest.GetRole
    rw [if_pos h]
    exact ⟨rfl, rfl⟩
  · intro req db s hs
    unfold serverCreateUser at hs
    cases hv : req.Validate with
    | some e => rw [hv] at hs; simp at hs
    | none =>
        rw [hv] at hs
        rw [repoCreateUser_executed] at hs
        simp at hs
        subst hs
        have hrole : ¬ req.Role = UserRole.UNKNOWN := by
          have := (validateCreate_none_iff req).mp hv
          tauto
        exact ⟨rfl, hrole, roleToInt32_ne_zero req.Role hrole⟩
  · intro req now db s hs
    unfold serverUpdateUser at hs
    cases hv : req.Validate with
    | some e => rw [hv] at hs; simp at hs
    | none =>
        rw [hv] at hs
        rw [repoUpdateUser_executed] at hs
        simp at hs
        subst hs
        have hrole : ¬ req.Role = UserRole.UNKNOWN := (validateUpdate_none_iff req).mp hv
        exact ⟨rfl, hrole, roleToInt32_ne_zero req.Role hrole⟩

/-- C4 witness: an UNKNOWN-role create is rejected with nothing executed,
and a concrete executed insert binds role to the non-zero tag 1. -/
theorem role_never_unknown_after_write_witness :
    (serverCreateUser (CreateUserRequest.mk "n" "e" "p" "p" UserRole.UNKNOWN)
        (Except.ok 1)).executed = [] ∧
    stmtRoleValue
        (Stmt.insertStmt tableName
          [nameColumn, emailColumn, passwordColumn, passwordConfirmColumn, roleColumn]
          [SqlValue.str "n", SqlValue.str "e", SqlValue.str "p", SqlValue.str "p",
            SqlValue.int32 1]
          "RETURNING id") =
      some (SqlValue.int32 (UserRole.user).toInt32) :=
  ⟨(role_never_unknown_after_write.1 (CreateUserRequest.mk "n" "e" "p" "p" UserRole.UNKNOWN)
      (Except.ok 1) rfl).2,
    (role_never_unknown_after_write.2.2.1 (CreateUserRequest.mk "n" "e" "p" "p" UserRole.user)
      (Except.ok 1)
      (Stmt.insertStmt tableName
        [nameColumn, emailColumn, passwordColumn, passwordConfirmColumn, roleColumn]
        [SqlValue.str "n", SqlValue.str "e", SqlValue.str "p", SqlValue.str "p",
          SqlValue.int32 1]
        "RETURNING id")
      (by decide)).1⟩

/-- C5: a GetUserInfo or DeleteUser request with id zero fails with the
InvalidArgument validation error, no response value, and no SQL sent. -/
theorem id_zero_requests_rejected :
    (∀ (req : GetUserInfoRequest) (db : Except String UserRow), req.Id = 0 →
        (serverGetUserInfo req db).result =
          Except.error (invalidArgumentErr "User-id must be provided") ∧
        (serverGetUserInfo req db).executed = []) ∧
    (∀ (req : DeleteUserRequest) (db : Except String Unit), req.Id = 0 →
        (serverDeleteUser req db).result =
          Except.error (invalidArgumentErr "User-id must be provided") ∧
        (serverDeleteUser req db).executed = []) := by
  constructor
  · intro req db h
    unfold serverGetUserInfo GetUserInfoRequest.Validate
    rw [if_pos h]
    exact ⟨rfl, rfl⟩
  · intro req db h
    unfold serverDeleteUser DeleteUserRequest.Validate
    rw [if_pos h]
    exact ⟨rfl, rfl⟩

/-- C5 witness: the concrete id-zero get and delete calls. -/
theorem id_zero_requests_rejected_witness :
    (serverGetUserInfo (GetUserInfoRequest.mk 0) (Except.error "m")).result =
        Except.error (invalidArgumentErr "User-id must be provided") ∧
    (serverDeleteUser (DeleteUserRequest.mk 0) (Except.ok ())).executed = [] :=
  ⟨(id_zero_requests_rejected.1 (GetUserInfoRequest.mk 0) (Except.error "m") rfl).1,
    (id_zero_requests_rejected.2 (DeleteUserRequest.mk 0) (Except.ok ()) rfl).2⟩

/-- C6: an UpdateUser request with role UNKNOWN fails validation with the
InvalidArgument "Invalid role" error and no statement reaches the pool. -/
theorem update_unknown_role_rejected (req : UpdateUserRequest) (now : Nat)
    (db : Except String Unit) (h : req.Role = UserRole.UNKNOWN) :
    (serverUpdateUser req now db).result = Except.error (invalidArgumentErr "Invalid role") ∧
    (serverUpdateUser req now db).executed = [] := by
  unfold serverUpdateUser UpdateUserRequest.Validate UpdateUserRequest.GetRole
  rw [if_pos h]
  exact ⟨rfl, rfl⟩

/-- C6 witness: the concrete UNKNOWN-role update call. -/
theorem update_unknown_role_rejected_witness :
    (serverUpdateUser (UpdateUserRequest.mk 5 none none UserRole.UNKNOWN) 0
        (Except.ok ())).result = Except.error (invalidArgumentErr "Invalid role") ∧
    (serverUpdateUser (UpdateUserRequest.mk 5 none none UserRole.UNKNOWN) 0
        (Except.ok ())).executed = [] :=
  update_unknown_role_rejected (UpdateUserRequest.mk 5 none none UserRole.UNKNOWN) 0
    (Except.ok ()) rfl

/-- C7: whenever any of the four handlers returns an InvalidArgument
error, validation failed before the repository was called, so no SQL
statement was built or executed. -/
theorem invalidargument_means_no_sql :
    (∀ (req : GetUserInfoRequest) (db : Except String UserRow),
        (serverGetUserInfo req db).errCode = some Code.InvalidArgument →
          (serverGetUserInfo req db).executed = []) ∧
    (∀ (req : CreateUserRequest) (db : Except String Int),
        (serverCreateUser req db).errCode = some Code.InvalidArgument →
          (serverCreateUser req db).executed = []) ∧
    (∀ (req : UpdateUserRequest) (now : Nat) (db : Except String Unit),
        (serverUpdateUser req now db).errCode = some Code.InvalidArgument →
          (serverUpdateUser req now db).executed = []) ∧
    (∀ (req : DeleteUserRequest) (db : Except String Unit),
        (serverDeleteUser req db).errCode = some Code.InvalidArgument →
          (serverDeleteUser req db).executed = []) :=
  ⟨serverGetUserInfo_ia_executed, serverCreateUser_ia_executed,
    serverUpdateUser_ia_executed, serverDeleteUser_ia_executed⟩

/-- C7 witness: one InvalidArgument call per handler, each executing no
SQL. -/
theorem invalidargument_means_no_sql_witness :
    (serverGetUserInfo (GetUserInfoRequest.mk 0) (Except.error "x")).executed = [] ∧
    (serverCreateUser (CreateUserRequest.mk "" "e" "p" "p" UserRole.user)
        (Except.ok 1)).executed = [] ∧
    (serverUpdateUser (UpdateUserRequest.mk 1 none none UserRole.UNKNOWN) 0
        (Except.ok ())).executed = [] ∧
    (serverDeleteUser (DeleteUserRequest.mk 0) (Except.ok ())).executed = [] :=
  ⟨invalidargument_means_no_sql.1 (GetUserInfoRequest.mk 0) (Except.error "x") rfl,
    invalidargument_means_no_sql.2.1 (CreateUserRequest.mk "" "e" "p" "p" UserRole.user)
      (Except.ok 1) rfl,
    invalidargument_means_no_sql.2.2.1 (UpdateUserRequest.mk 1 none none UserRole.UNKNOWN) 0
      (Except.ok ()) rfl,
    invalidargument_means_no_sql.2.2.2 (DeleteUserRequest.mk 0) (Except.ok ()) rfl⟩

/-- C8: a successful GetUserInfo returns exactly the scanned row's id,
name, email and role, with created_at always set in the response and
updated_at present exactly when the stored value is non-NULL; the single
executed statement selects those six columns by the request id. -/
theorem getUserInfo_success_row_mapping (req : GetUserInfoRequest) (row : UserRow)
    (h : ¬ req.Id = 0) :
    (serverGetUserInfo req (Except.ok row)).result =
      Except.ok (GetUserInfoResponse.mk row.id row.name row.email row.role
        (some row.createdAt) row.updatedAt) ∧
    (serverGetUserInfo req (Except.ok row)).executed =
      [Stmt.selectStmt tableName
        [idColumn, nameColumn, emailColumn, roleColumn, createdAtColumn, updatedAtColumn]
        req.Id] := by
  unfold serverGetUserInfo
  rw [(validateGet_none_iff req).mpr h]
  constructor
  · cases hu : row.updatedAt <;> simp [repoGetUser, SelectBuilder.ToSql, hu]
  · rfl

/-- C8 witness: a concrete row with a set updated_at, and one with NULL
updated_at mapping to a nil response field. -/
theorem getUserInfo_success_row_mapping_witness :
    (serverGetUserInfo (GetUserInfoRequest.mk 7)
        (Except.ok (UserRow.mk 7 "alice" "a@b.c" UserRole.admin 100 (some 200)))).result =
      Except.ok (GetUserInfoResponse.mk 7 "alice" "a@b.c" UserRole.admin (some 100)
        (some 200)) ∧
    (serverGetUserInfo (GetUserInfoRequest.mk 8)
        (Except.ok (UserRow.mk 8 "bob" "b@b.c" UserRole.user 300 none))).result =
      Except.ok (GetUserInfoResponse.mk 8 "bob" "b@b.c" UserRole.user (some 300) none) :=
  ⟨(getUserInfo_success_row_mapping (GetUserInfoRequest.mk 7)
      (UserRow.mk 7 "alice" "a@b.c" UserRole.admin 100 (some 200)) (by decide)).1,
    (getUserInfo_success_row_mapping (GetUserInfoRequest.mk 8)
      (UserRow.mk 8 "bob" "b@b.c" UserRole.user 300 none) (by decide)).1⟩

/-- C9: the insert CreateUser executes carries columns name, email,
password, password_confirm and role, binds the raw untrimmed request
strings verbatim (the password and its confirmation as plain strings, no
hashing), and the password and password_confirm columns do not exist in
the auth table created by the migration. -/
theorem createUser_inserts_verbatim_password_columns (req : CreateUserRequest)
    (db : Except String Int) :
    (repoCreateUser req db).executed =
      [Stmt.insertStmt tableName
        [nameColumn, emailColumn, passwordColumn, passwordConfirmColumn, roleColumn]
        [SqlValue.str req.Name, SqlValue.str req.Email, SqlValue.str req.Password,
          SqlValue.str req.PasswordConfirm, SqlValue.int32 req.Role.toInt32]
        "RETURNING id"] ∧
    authMigrationColumns.contains passwordColumn = false ∧
    authMigrationColumns.contains passwordConfirmColumn = false :=
  ⟨rfl, by decide, by decide⟩

/-- C10: id validation rejects exactly id zero for GetUserInfo and
DeleteUser (every non-zero id, negative ones included, passes and reaches
the database), and UpdateUser validation checks no id at all, so an
update with id zero passes validation and its statement is executed. -/
theorem id_validation_only_zero :
    (∀ req : GetUserInfoRequest, req.Validate = none ↔ ¬ req.Id = 0) ∧
    (∀ req : DeleteUserRequest, req.Validate = none ↔ ¬ req.Id = 0) ∧
    (∀ req : UpdateUserRequest, req.Validate = none ↔ ¬ req.Role = UserRole.UNKNOWN) ∧
    (∀ (db : Except String UserRow) (i : Int), ¬ i = 0 →
        (serverGetUserInfo (GetUserInfoRequest.mk i) db).executed =
          [Stmt.selectStmt tableName
            [idColumn, nameColumn, emailColumn, roleColumn, createdAtColumn, updatedAtColumn]
            i]) ∧
    (∀ (db : Except String Unit) (i : Int), ¬ i = 0 →
        (serverDeleteUser (DeleteUserRequest.mk i) db).executed =
          [Stmt.deleteStmt tableName i]) ∧
    (∀ (nm em : Option String) (role : UserRole) (now : Nat) (db : Except String Unit),
        ¬ role = UserRole.UNKNOWN →
          (serverUpdateUser (UpdateUserRequest.mk 0 nm em role) now db).executed =
            [Stmt.updateStmt tableName
              [(roleColumn, SqlValue.int32 role.toInt32),
                (updatedAtColumn, SqlValue.timeVal now)]
              0]) := by
  refine ⟨validateGet_none_iff, validateDelete_none_iff, validateUpdate_none_iff, ?_, ?_, ?_⟩
  · intro db i h
    unfold serverGetUserInfo
    rw [(validateGet_none_iff (GetUserInfoRequest.mk i)).mpr h]
    rfl
  · intro db i h
    unfold serverDeleteUser
    rw [(validateDelete_none_iff (DeleteUserRequest.mk i)).mpr h]
    rfl
  · intro nm em role now db h
    unfold serverUpdateUser
    rw [(validateUpdate_none_iff (UpdateUserRequest.mk 0 nm em role)).mpr h]
    rfl

/-- C10 witness: a negative id passes validation and reaches the pool,
and an id-zero update with a known role is executed against storage. -/
theorem id_validation_only_zero_witness :
    (GetUserInfoRequest.mk (-5)).Validate = none ∧
    (serverGetUserInfo (GetUserInfoRequest.mk (-5)) (Except.error "x")).executed =
      [Stmt.selectStmt tableName
        [idColumn, nameColumn, emailColumn, roleColumn, createdAtColumn, updatedAtColumn]
        (-5)] ∧
    (serverDeleteUser (DeleteUserRequest.mk (-5)) (Except.ok ())).executed =
      [Stmt.deleteStmt tableName (-5)] ∧
    (serverUpdateUser (UpdateUserRequest.mk 0 none none UserRole.admin) 3
        (Except.ok ())).executed =
      [Stmt.updateStmt tableName
        [(roleColumn, SqlValue.int32 2), (updatedAtColumn, SqlValue.timeVal 3)] 0] :=
  ⟨(id_validation_only_zero.1 (GetUserInfoRequest.mk (-5))).mpr (by decide),
    id_validation_only_zero.2.2.2.1 (Except.error "x") (-5) (by decide),
    id_validation_only_zero.2.2.2.2.1 (Except.ok ()) (-5) (by decide),
    id_validation_only_zero.2.2.2.2.2 none none UserRole.admin 3 (Except.ok ())
      (by decide)⟩

end Auth
